import Mathlib

/-!
Verification of the Hybrid-AI-Defense phishing-detection system.

Scores are modelled as rationals. The risk aggregator, verdict function and
link checker live in backend code whose Python sources are not present in the
repository snapshot (only READMEs describe them); those are modelled from the
spec text and marked as such. The frontend (`frontend/app.js`) and the Gmail
content script (`extension/content.js`) are embedded directly from the source.
-/

namespace HybridDefense

/-- The three-valued verdict produced by the aggregator. -/
inductive Verdict where
  | SAFE
  | SUSPICIOUS
  | PHISHING
deriving DecidableEq, Repr

/-- Clamp a score to the unit interval, as the aggregator does after the boost. -/
def clamp01 (x : ℚ) : ℚ := max 0 (min 1 x)

/-- One score per analysis layer that carries a weight in full (deep-analyze) mode. -/
structure LayerScores where
  text : ℚ
  url : ℚ
  visual : ℚ
  link : ℚ
deriving DecidableEq, Repr

/-- Modelled from the spec: full-mode text weight (deep_router.py is not in src/). -/
def W_TEXT : ℚ := 15/100

/-- Modelled from the spec: full-mode URL weight. -/
def W_URL : ℚ := 30/100

/-- Modelled from the spec: full-mode visual weight. -/
def W_VISUAL : ℚ := 25/100

/-- Modelled from the spec: full-mode link weight. -/
def W_LINK : ℚ := 20/100

/-- Modelled from the spec: the reserved weight, a placeholder for a future signal. -/
def W_RESERVED : ℚ := 10/100

/-- Modelled from the spec: the reserved slot contributes 0 until populated. -/
def reservedScore : ℚ := 0

/-- Modelled from the spec: full-mode weighted sum over the five weight slots,
before boost and clamping. -/
def weightedSumFull (s : LayerScores) : ℚ :=
  s.text * W_TEXT + s.url * W_URL + s.visual * W_VISUAL + s.link * W_LINK
    + reservedScore * W_RESERVED

/-- Modelled from the spec: lite-mode weighted sum (text 0.60, url 0.40). -/
def weightedSumLite (t u : ℚ) : ℚ := t * (60/100) + u * (40/100)

/-- Each layer's own internal suspicious threshold, kept abstract. -/
structure LayerThresholds where
  text : ℚ
  url : ℚ
  visual : ℚ
  link : ℚ
deriving DecidableEq, Repr

/-- Modelled from the spec: how many distinct layers crossed their own
internal suspicious threshold (full mode). -/
def flaggedCount (th : LayerThresholds) (s : LayerScores) : Nat :=
  (if th.text ≤ s.text then 1 else 0) + (if th.url ≤ s.url then 1 else 0)
    + (if th.visual ≤ s.visual then 1 else 0) + (if th.link ≤ s.link then 1 else 0)

/-- Modelled from the spec: number of flagging layers in lite mode (text and URL only). -/
def flaggedCountLite (thT thU t u : ℚ) : Nat :=
  (if thT ≤ t then 1 else 0) + (if thU ≤ u then 1 else 0)

/-- Modelled from the spec: the fixed +0.15 boost applied when two or more
distinct layers independently flag suspicion (full mode). -/
def boost (th : LayerThresholds) (s : LayerScores) : ℚ :=
  if 2 ≤ flaggedCount th s then 15/100 else 0

/-- Modelled from the spec: the same boost rule in lite mode. -/
def boostLite (thT thU t u : ℚ) : ℚ :=
  if 2 ≤ flaggedCountLite thT thU t u then 15/100 else 0

/-- Modelled from the spec: full-mode overall risk score — weighted sum, plus
boost, clamped to the unit interval. -/
def overallFull (th : LayerThresholds) (s : LayerScores) : ℚ :=
  clamp01 (weightedSumFull s + boost th s)

/-- Modelled from the spec: lite-mode overall risk score. -/
def overallLite (thT thU t u : ℚ) : ℚ :=
  clamp01 (weightedSumLite t u + boostLite thT thU t u)

/-- Modelled from the spec: verdict thresholds on the overall risk score
(overall ≥ 0.65 → PHISHING; 0.30 ≤ overall < 0.65 → SUSPICIOUS; otherwise SAFE). -/
def verdictOf (s : ℚ) : Verdict :=
  if 65/100 ≤ s then Verdict.PHISHING
  else if 30/100 ≤ s then Verdict.SUSPICIOUS
  else Verdict.SAFE

/-- From `frontend/app.js` (`scoreColorClass`): the CSS class chosen for a score. -/
def scoreColorClass (score : ℚ) : String :=
  if 65/100 ≤ score then "phishing"
  else if 30/100 ≤ score then "suspicious"
  else "safe"

/-- From `frontend/app.js` (`renderResults`): the displayed text-layer risk,
`data.text_analysis.is_phishing ? confidence : 1 - confidence`. -/
def textRisk (isPhishing : Bool) (confidence : ℚ) : ℚ :=
  if isPhishing then confidence else 1 - confidence

/-- One crawl result as the frontend consumes it (`data.crawl_results` entries). -/
structure CrawlResult where
  url : String
  final_url : String
  page_title : String
  has_login_form : Bool
  has_password_field : Bool
  was_redirected : Bool
  redirect_chain : List String
  error : Option String
deriving DecidableEq, Repr

/-- From `frontend/app.js` (`renderResults`, crawl layer): one iteration of the
`forEach` loop updating `maxCrawlRisk` for a single crawl result. -/
def crawlStep (acc : ℚ) (c : CrawlResult) : ℚ :=
  if c.error.isSome then acc
  else
    let a := if c.has_login_form then max acc (50/100) else acc
    let b := if c.has_password_field then max a (60/100) else a
    if c.was_redirected then max b (30/100) else b

/-- From `frontend/app.js` (`renderResults`, crawl layer): the displayed crawl
risk, the loop starting from `let maxCrawlRisk = 0`. -/
def maxCrawlRisk (results : List CrawlResult) : ℚ :=
  results.foldl crawlStep 0

/-- The fixed risk contribution of a single crawl result: 0 on error, else the
largest of 0.5 (login form), 0.6 (password field), 0.3 (redirected). -/
def crawlContribution (c : CrawlResult) : ℚ :=
  if c.error.isSome then 0
  else
    max (max (if c.has_login_form then 50/100 else 0)
             (if c.has_password_field then 60/100 else 0))
        (if c.was_redirected then 30/100 else 0)

/-- From `frontend/app.js`: `API_BASE`. -/
def API_BASE : String := "http://localhost:8001/api/v1"

/-- An observable action of the frontend `analyze` function. -/
inductive FrontendAction where
  | showError (msg : String)
  | postRequest (endpoint : String)
deriving DecidableEq, Repr

/-- Whether a frontend action is a network POST. -/
def FrontendAction.isPost : FrontendAction → Bool
  | FrontendAction.postRequest _ => true
  | FrontendAction.showError _ => false

/-- From `frontend/app.js` (`analyze`): trims the input text; when empty it
shows an input error and returns before any request; otherwise it issues one
POST to the deep-analyze endpoint. -/
def analyze (innerText : String) : List FrontendAction :=
  if innerText.trim = "" then
    [FrontendAction.showError "Please enter an email body to analyze."]
  else
    [FrontendAction.postRequest (API_BASE ++ "/deep-analyze")]

/-- Modelled from the spec: LinkChecker redirect following (link_checker.py is
not in src/). Follows a redirect map with an explicit visited set threaded
through the call; an already-visited next URL ends the branch with a cycle
flag, and a hop budget caps the recorded chain. Returns the recorded redirect
chain and the flags raised. -/
def followChain (redirect : String → Option String) :
    Nat → List String → String → List String × List String
  | hopsLeft, visited, url =>
    match redirect url with
    | none => ([], [])
    | some next =>
      if next ∈ visited then ([], ["Redirect cycle detected"])
      else
        match hopsLeft with
        | 0 => ([], ["Excessive redirects"])
        | h + 1 =>
          let r := followChain redirect h (next :: visited) next
          (next :: r.1, r.2)

/-- Modelled from the spec: one LinkChecker invocation on a starting URL with a
configured maximum hop count; the visited set starts fresh for this call. -/
def checkRedirects (redirect : String → Option String) (maxHops : Nat)
    (url : String) : List String × List String :=
  followChain redirect maxHops [url] url

/-- A DOM element as the Gmail content script reads it. -/
structure DomElement where
  innerText : String
  innerHTML : String
  value : Option String
deriving DecidableEq, Repr

/-- The document, abstracted as its `querySelectorAll` results per selector. -/
structure GmailDom where
  queryAll : String → List DomElement

/-- `document.querySelector`: the first element matching the selector. -/
def querySelector (d : GmailDom) (sel : String) : Option DomElement :=
  (d.queryAll sel).head?

/-- From `extension/content.js` (`extractEmailBody`): the body-container
selectors tried in priority order. -/
def bodySelectors : List String :=
  ["div.a3s.aiL", "div.ii.gt div.a3s", "div[data-message-id] div.a3s",
   "div.maincontent"]

/-- From `extension/content.js` (`extractEmailBody`): the reading-pane fallback
selector. -/
def readingPaneSelector : String := "div[role=\"listitem\"] div.gs"

/-- From `extension/content.js` (`extractEmailBody`): first selector with any
match wins and the last matching element is used; else the reading-pane
fallback; else null. -/
def extractEmailBody (d : GmailDom) : Option (String × String) :=
  match bodySelectors.find? (fun sel => !(d.queryAll sel).isEmpty) with
  | some sel =>
    match (d.queryAll sel).getLast? with
    | some el => some (el.innerText.trim, el.innerHTML)
    | none => none
  | none =>
    match querySelector d readingPaneSelector with
    | some el => some (el.innerText.trim, el.innerHTML)
    | none => none

/-- From `extension/content.js` (`extractSubject`): the subject selectors tried
in order. -/
def subjectSelectors : List String :=
  ["h2.hP", "div.ha h2", "span[data-thread-perm-id]", "input[name=\"subject\"]"]

/-- JavaScript `a || b` on strings: the empty string is falsy. -/
def jsOr (a b : String) : String := if a = "" then b else a

/-- From `extension/content.js` (`extractSubject`): first matching selector
yields `(el.value || el.innerText || '').trim()`; with no match the empty
string is returned, never null. -/
def extractSubject (d : GmailDom) : String :=
  match subjectSelectors.findSome? (fun sel => querySelector d sel) with
  | some el => (jsOr (jsOr (el.value.getD "") el.innerText) "").trim
  | none => ""

/-- A response the content script can send back to the popup. -/
inductive ExtResponse where
  | success (subject body bodyHtml : String)
  | failure (error : String)
deriving DecidableEq, Repr

/-- From `extension/content.js` (the `chrome.runtime.onMessage` listener): the
responses sent for a message with the given action. -/
def handleMessage (d : GmailDom) (action : String) : List ExtResponse :=
  if action = "extract_email" then
    match extractEmailBody d with
    | some (text, html) => [ExtResponse.success (extractSubject d) text html]
    | none =>
      [ExtResponse.failure "No email found. Please open an email in Gmail first."]
  else []

/-- Modelled from the spec: a crafted redirect cycle A→B→A. -/
def cycleRedirect : String → Option String :=
  fun u => if u = "A" then some "B" else if u = "B" then some "A" else none

theorem clamp01_nonneg (x : ℚ) : 0 ≤ clamp01 x := le_max_left 0 _

theorem clamp01_le_one (x : ℚ) : clamp01 x ≤ 1 :=
  max_le (by norm_num) (min_le_left 1 x)

theorem clamp01_mono {x y : ℚ} (h : x ≤ y) : clamp01 x ≤ clamp01 y :=
  max_le_max le_rfl (min_le_min le_rfl h)

/-- Claim C1: in full mode the overall risk score before boost and clamping is
text×0.15 + url×0.30 + visual×0.25 + link×0.20; the reserved 0.10 weight
contributes exactly 0 and is not redistributed — the active weights stay at
their stated values and sum with the reserved weight to 1. -/
theorem full_weights_spec (th : LayerThresholds) (s : LayerScores) :
    weightedSumFull s
      = s.text * (15/100) + s.url * (30/100) + s.visual * (25/100)
          + s.link * (20/100) ∧
    reservedScore * W_RESERVED = 0 ∧
    W_TEXT = 15/100 ∧ W_URL = 30/100 ∧ W_VISUAL = 25/100 ∧ W_LINK = 20/100 ∧
    W_RESERVED = 10/100 ∧
    W_TEXT + W_URL + W_VISUAL + W_LINK + W_RESERVED = 1 ∧
    overallFull th s = clamp01 (weightedSumFull s + boost th s) := by
  refine ⟨?_, ?_, ?_, ?_, ?_, ?_, ?_, ?_, rfl⟩ <;>
    simp [weightedSumFull, reservedScore, W_TEXT, W_URL, W_VISUAL, W_LINK,
      W_RESERVED] <;> norm_num

/-- Claim C2: in either mode the fixed +0.15 boost is applied exactly when two
or more distinct layers crossed their own suspicious threshold, one flagging
layer alone never triggers it, and the boost is added before clamping. -/
theorem multi_layer_boost_rule (th : LayerThresholds) (s : LayerScores)
    (thT thU t u : ℚ) :
    (boost th s = 15/100 ↔ 2 ≤ flaggedCount th s) ∧
    (flaggedCount th s ≤ 1 → boost th s = 0) ∧
    overallFull th s = clamp01 (weightedSumFull s + boost th s) ∧
    (boostLite thT thU t u = 15/100 ↔ 2 ≤ flaggedCountLite thT thU t u) ∧
    (flaggedCountLite thT thU t u ≤ 1 → boostLite thT thU t u = 0) ∧
    overallLite thT thU t u
      = clamp01 (weightedSumLite t u + boostLite thT thU t u) := by
  refine ⟨?_, ?_, rfl, ?_, ?_, rfl⟩
  · unfold boost; split_ifs with h <;> simp [h] <;> norm_num
  · intro hle; unfold boost; rw [if_neg]; omega
  · unfold boostLite; split_ifs with h <;> simp [h] <;> norm_num
  · intro hle; unfold boostLite; rw [if_neg]; omega

/-- Claim C3: the verdict is a pure threshold function of the overall score —
s ≥ 0.65 is PHISHING, 0.30 ≤ s < 0.65 is SUSPICIOUS, s < 0.30 is SAFE, with
exact boundaries (0.30 is SUSPICIOUS, 0.29999 is SAFE) — and the frontend's
scoreColorClass applies exactly these thresholds. -/
theorem verdict_threshold_boundaries (s : ℚ) :
    (verdictOf s = Verdict.PHISHING ↔ 65/100 ≤ s) ∧
    (verdictOf s = Verdict.SUSPICIOUS ↔ 30/100 ≤ s ∧ s < 65/100) ∧
    (verdictOf s = Verdict.SAFE ↔ s < 30/100) ∧
    verdictOf (30/100) = Verdict.SUSPICIOUS ∧
    verdictOf (29999/100000) = Verdict.SAFE ∧
    (scoreColorClass s = "phishing" ↔ verdictOf s = Verdict.PHISHING) ∧
    (scoreColorClass s = "suspicious" ↔ verdictOf s = Verdict.SUSPICIOUS) ∧
    (scoreColorClass s = "safe" ↔ verdictOf s = Verdict.SAFE) := by
  refine ⟨?_, ?_, ?_, ?_, ?_, ?_, ?_, ?_⟩ <;>
    simp only [verdictOf, scoreColorClass] <;>
    split_ifs with h1 h2 <;>
    try simp_all
  all_goals linarith

set_option maxHeartbeats 2000000 in
theorem crawlStep_eq_max (acc : ℚ) (c : CrawlResult) (h : 0 ≤ acc) :
    crawlStep acc c = max acc (crawlContribution c) := by
  by_cases he : c.error.isSome
  · simp [crawlStep, crawlContribution, he, max_eq_left h]
  · cases hl : c.has_login_form <;> cases hp : c.has_password_field <;>
      cases hr : c.was_redirected <;>
      simp [crawlStep, crawlContribution, he, hl, hp, hr, max_def] <;>
      split_ifs <;> linarith

theorem crawlContribution_nonneg (c : CrawlResult) : 0 ≤ crawlContribution c := by
  unfold crawlContribution
  split_ifs <;> norm_num

theorem crawlContribution_le (c : CrawlResult) : crawlContribution c ≤ 60/100 := by
  unfold crawlContribution
  split_ifs <;> norm_num

theorem foldl_crawlStep_eq (cs : List CrawlResult) :
    ∀ acc : ℚ, 0 ≤ acc →
      cs.foldl crawlStep acc = (cs.map crawlContribution).foldl max acc := by
  induction cs with
  | nil => intro acc _; rfl
  | cons c cs ih =>
    intro acc h
    simp only [List.foldl_cons, List.map_cons]
    rw [crawlStep_eq_max acc c h]
    exact ih _ (le_trans h (le_max_left _ _))

theorem foldl_max_le_of (B : ℚ) (l : List ℚ) :
    ∀ acc : ℚ, acc ≤ B → (∀ x ∈ l, x ≤ B) → l.foldl max acc ≤ B := by
  induction l with
  | nil => intro acc h _; simpa using h
  | cons x xs ih =>
    intro acc h hall
    simp only [List.foldl_cons]
    exact ih _ (max_le h (hall x (by simp))) (fun y hy => hall y (by simp [hy]))

theorem le_foldl_max (l : List ℚ) : ∀ acc : ℚ, acc ≤ l.foldl max acc := by
  induction l with
  | nil => intro acc; simp
  | cons x xs ih =>
    intro acc
    simp only [List.foldl_cons]
    exact le_trans (le_max_left _ _) (ih _)

theorem maxCrawlRisk_eq (cs : List CrawlResult) :
    maxCrawlRisk cs = (cs.map crawlContribution).foldl max 0 :=
  foldl_crawlStep_eq cs 0 le_rfl

theorem maxCrawlRisk_nonneg (cs : List CrawlResult) : 0 ≤ maxCrawlRisk cs := by
  rw [maxCrawlRisk_eq]
  exact le_foldl_max _ 0

theorem maxCrawlRisk_le (cs : List CrawlResult) : maxCrawlRisk cs ≤ 60/100 := by
  rw [maxCrawlRisk_eq]
  refine foldl_max_le_of (60/100) _ 0 (by norm_num) ?_
  intro x hx
  rcases List.mem_map.mp hx with ⟨c, _, rfl⟩
  exact crawlContribution_le c

/-- Claim C4: every emitted risk score lies in the closed unit interval — the
aggregate overall score in both modes (additive scoring, boost and clamping
included), the frontend's derived text-layer score whenever the classifier
confidence is in the unit interval, and the frontend's derived crawl-layer
score. -/
theorem risk_scores_unit_interval :
    (∀ (th : LayerThresholds) (s : LayerScores),
        0 ≤ overallFull th s ∧ overallFull th s ≤ 1) ∧
    (∀ thT thU t u : ℚ,
        0 ≤ overallLite thT thU t u ∧ overallLite thT thU t u ≤ 1) ∧
    (∀ (p : Bool) (c : ℚ), 0 ≤ c ∧ c ≤ 1 →
        0 ≤ textRisk p c ∧ textRisk p c ≤ 1) ∧
    (∀ cs : List CrawlResult, 0 ≤ maxCrawlRisk cs ∧ maxCrawlRisk cs ≤ 1) := by
  refine ⟨?_, ?_, ?_, ?_⟩
  · intro th s
    exact ⟨clamp01_nonneg _, clamp01_le_one _⟩
  · intro thT thU t u
    exact ⟨clamp01_nonneg _, clamp01_le_one _⟩
  · rintro p c ⟨h0, h1⟩
    cases p <;> simp only [textRisk, if_true, if_false, Bool.false_eq_true] <;>
      constructor <;> linarith
  · intro cs
    exact ⟨maxCrawlRisk_nonneg cs, le_trans (maxCrawlRisk_le cs) (by norm_num)⟩

theorem ind_mono {a x y : ℚ} (h : x ≤ y) :
    (if a ≤ x then (1 : Nat) else 0) ≤ if a ≤ y then 1 else 0 := by
  by_cases h1 : a ≤ x
  · have h2 : a ≤ y := le_trans h1 h
    simp [h1, h2]
  · by_cases h2 : a ≤ y <;> simp [h1, h2]

theorem flaggedCount_mono (th : LayerThresholds) {s s' : LayerScores}
    (h1 : s.text ≤ s'.text) (h2 : s.url ≤ s'.url) (h3 : s.visual ≤ s'.visual)
    (h4 : s.link ≤ s'.link) : flaggedCount th s ≤ flaggedCount th s' := by
  unfold flaggedCount
  exact Nat.add_le_add
    (Nat.add_le_add (Nat.add_le_add (ind_mono h1) (ind_mono h2)) (ind_mono h3))
    (ind_mono h4)

theorem boost_mono (th : LayerThresholds) {s s' : LayerScores}
    (h1 : s.text ≤ s'.text) (h2 : s.url ≤ s'.url) (h3 : s.visual ≤ s'.visual)
    (h4 : s.link ≤ s'.link) : boost th s ≤ boost th s' := by
  have hc := flaggedCount_mono th h1 h2 h3 h4
  unfold boost
  by_cases ha : 2 ≤ flaggedCount th s
  · have hb : 2 ≤ flaggedCount th s' := le_trans ha hc
    simp [ha, hb]
  · by_cases hb : 2 ≤ flaggedCount th s' <;> simp [ha, hb] <;> norm_num

theorem weightedSumFull_mono {s s' : LayerScores}
    (h1 : s.text ≤ s'.text) (h2 : s.url ≤ s'.url) (h3 : s.visual ≤ s'.visual)
    (h4 : s.link ≤ s'.link) : weightedSumFull s ≤ weightedSumFull s' := by
  unfold weightedSumFull W_TEXT W_URL W_VISUAL W_LINK reservedScore W_RESERVED
  linarith

theorem boostLite_mono (thT thU : ℚ) {t t' u u' : ℚ}
    (h1 : t ≤ t') (h2 : u ≤ u') :
    boostLite thT thU t u ≤ boostLite thT thU t' u' := by
  have hc : flaggedCountLite thT thU t u ≤ flaggedCountLite thT thU t' u' :=
    Nat.add_le_add (ind_mono h1) (ind_mono h2)
  unfold boostLite
  by_cases ha : 2 ≤ flaggedCountLite thT thU t u
  · have hb : 2 ≤ flaggedCountLite thT thU t' u' := le_trans ha hc
    simp [ha, hb]
  · by_cases hb : 2 ≤ flaggedCountLite thT thU t' u' <;> simp [ha, hb] <;>
      norm_num

theorem overallFull_mono (th : LayerThresholds) {s s' : LayerScores}
    (h1 : s.text ≤ s'.text) (h2 : s.url ≤ s'.url) (h3 : s.visual ≤ s'.visual)
    (h4 : s.link ≤ s'.link) : overallFull th s ≤ overallFull th s' :=
  clamp01_mono
    (add_le_add (weightedSumFull_mono h1 h2 h3 h4) (boost_mono th h1 h2 h3 h4))

theorem overallLite_mono (thT thU : ℚ) {t t' u u' : ℚ}
    (h1 : t ≤ t') (h2 : u ≤ u') :
    overallLite thT thU t u ≤ overallLite thT thU t' u' := by
  refine clamp01_mono (add_le_add ?_ (boostLite_mono thT thU h1 h2))
  unfold weightedSumLite
  linarith

/-- Claim C5: the overall risk score is monotonic non-decreasing in each
individual layer's score with all other layers held fixed, in full mode for
each of the four weighted layers and in lite mode for both layers. -/
theorem overall_monotone_per_layer (th : LayerThresholds) (s : LayerScores)
    (thT thU t u x y : ℚ) (hxy : x ≤ y) :
    overallFull th { s with text := x } ≤ overallFull th { s with text := y } ∧
    overallFull th { s with url := x } ≤ overallFull th { s with url := y } ∧
    overallFull th { s with visual := x } ≤ overallFull th { s with visual := y } ∧
    overallFull th { s with link := x } ≤ overallFull th { s with link := y } ∧
    overallLite thT thU x u ≤ overallLite thT thU y u ∧
    overallLite thT thU t x ≤ overallLite thT thU t y :=
  ⟨overallFull_mono th hxy le_rfl le_rfl le_rfl,
   overallFull_mono th le_rfl hxy le_rfl le_rfl,
   overallFull_mono th le_rfl le_rfl hxy le_rfl,
   overallFull_mono th le_rfl le_rfl le_rfl hxy,
   overallLite_mono thT thU hxy le_rfl,
   overallLite_mono thT thU le_rfl hxy⟩

/-- Witness for C5 at a concrete input: thresholds all 0.30, base scores 0.50,
raising one layer's score from 0 to 1. -/
theorem overall_monotone_witness :
    overallFull ⟨3/10, 3/10, 3/10, 3/10⟩
        { text := 0, url := 1/2, visual := 1/2, link := 1/2 }
      ≤ overallFull ⟨3/10, 3/10, 3/10, 3/10⟩
        { text := 1, url := 1/2, visual := 1/2, link := 1/2 } :=
  (overall_monotone_per_layer ⟨3/10, 3/10, 3/10, 3/10⟩
    ⟨0, 1/2, 1/2, 1/2⟩ (3/10) (3/10) (1/2) (1/2) 0 1 (by norm_num)).1

/-- Claim C6: a request whose text is empty after trimming is rejected by the
frontend before any layer runs — an input error is shown and no network call
is made — while a non-empty trimmed text issues exactly one POST to the
deep-analyze endpoint. -/
theorem analyze_empty_rejects_nonempty_posts (text : String) :
    ((analyze text).countP FrontendAction.isPost
        = if text.trim = "" then 0 else 1) ∧
    (text.trim = "" →
        analyze text
          = [FrontendAction.showError "Please enter an email body to analyze."]) ∧
    (¬ text.trim = "" →
        analyze text
          = [FrontendAction.postRequest (API_BASE ++ "/deep-analyze")]) := by
  by_cases h : text.trim = "" <;>
    simp [analyze, h, FrontendAction.isPost, List.countP_cons]

theorem followChain_chain_le (redirect : String → Option String) :
    ∀ (n : Nat) (visited : List String) (url : String),
      (followChain redirect n visited url).1.length ≤ n := by
  intro n
  induction n with
  | zero =>
    intro visited url
    unfold followChain
    cases hrd : redirect url with
    | none => simp
    | some next => by_cases hm : next ∈ visited <;> simp [hm]
  | succ k ih =>
    intro visited url
    unfold followChain
    cases hrd : redirect url with
    | none => simp
    | some next =>
      by_cases hm : next ∈ visited
      · simp [hm]
      · simp only [hm, if_neg, List.length_cons, not_false_eq_true]
        have := ih (next :: visited) next
        omega

/-- Claim C7: LinkChecker terminates on every input, threading a visited set
scoped to the single call: the recorded redirect chain never exceeds the
configured maximum hop count, and a crafted A→B→A redirect cycle terminates
immediately with a cycle flag. -/
theorem link_checker_terminates_bounded :
    (∀ (redirect : String → Option String) (n : Nat) (visited : List String)
        (url : String), (followChain redirect n visited url).1.length ≤ n) ∧
    (∀ (redirect : String → Option String) (maxHops : Nat) (url : String),
        (checkRedirects redirect maxHops url).1.length ≤ maxHops) ∧
    checkRedirects cycleRedirect 3 "A" = (["B"], ["Redirect cycle detected"]) := by
  refine ⟨fun r n v u => followChain_chain_le r n v u,
          fun r m u => followChain_chain_le r m _ _, ?_⟩
  rfl

/-- Claim C8: the displayed text-layer risk is the classifier confidence when
is_phishing holds and one minus the confidence otherwise — a pure function of
the response — and a confidence in the unit interval keeps it in the unit
interval. -/
theorem text_layer_risk_display :
    (∀ c : ℚ, textRisk true c = c ∧ textRisk false c = 1 - c) ∧
    (∀ (p : Bool) (c : ℚ), 0 ≤ c ∧ c ≤ 1 →
        0 ≤ textRisk p c ∧ textRisk p c ≤ 1) := by
  constructor
  · intro c
    simp [textRisk]
  · rintro p c ⟨h0, h1⟩
    cases p <;> simp [textRisk] <;> constructor <;> linarith

/-- Claim C9: the displayed crawl-layer risk is the maximum over crawl results
of fixed per-result contributions — 0.5 for a login form, 0.6 for a password
field, 0.3 for a redirect, 0 when none apply — so it never exceeds 0.6, and a
result with its error field set contributes 0. -/
theorem crawl_layer_risk_display :
    (∀ cs : List CrawlResult,
        maxCrawlRisk cs = (cs.map crawlContribution).foldl max 0) ∧
    (∀ cs : List CrawlResult, maxCrawlRisk cs ≤ 60/100) ∧
    (∀ c : CrawlResult, c.error.isSome = true → crawlContribution c = 0) ∧
    (∀ c : CrawlResult, c.error = none →
        crawlContribution c
          = max (max (if c.has_login_form then 50/100 else 0)
                     (if c.has_password_field then 60/100 else 0))
                (if c.was_redirected then 30/100 else 0)) := by
  refine ⟨maxCrawlRisk_eq, maxCrawlRisk_le, ?_, ?_⟩
  · intro c h
    simp [crawlContribution, h]
  · intro c h
    simp [crawlContribution, h]

/-- Claim C10: an extract_email message receives exactly one response — success
carrying subject, body and body_html taken from the last element matched by
the first body selector with any match, or failure with an error string when
no body container matches — and the subject is the empty string, never null,
when no subject selector matches. -/
theorem extract_email_single_response (d : GmailDom) :
    (handleMessage d "extract_email").length = 1 ∧
    ((∃ sub b bh,
        handleMessage d "extract_email" = [ExtResponse.success sub b bh])
      ↔ (extractEmailBody d).isSome = true) ∧
    (∀ sel el,
        bodySelectors.find? (fun s => !(d.queryAll s).isEmpty) = some sel →
        (d.queryAll sel).getLast? = some el →
        handleMessage d "extract_email"
          = [ExtResponse.success (extractSubject d)
              el.innerText.trim el.innerHTML]) ∧
    (extractEmailBody d = none →
        handleMessage d "extract_email"
          = [ExtResponse.failure
              "No email found. Please open an email in Gmail first."]) ∧
    ((∀ sel ∈ subjectSelectors, d.queryAll sel = []) →
        extractSubject d = "") := by
  refine ⟨?_, ?_, ?_, ?_, ?_⟩
  · rcases hE : extractEmailBody d with _ | ⟨t, ht⟩ <;> simp [handleMessage, hE]
  · rcases hE : extractEmailBody d with _ | ⟨t, ht⟩ <;> simp [handleMessage, hE]
  · intro sel el h1 h2
    simp [handleMessage, extractEmailBody, h1, h2]
  · intro h
    simp [handleMessage, h]
  · intro h
    have h1 : d.queryAll "h2.hP" = [] := h _ (by simp [subjectSelectors])
    have h2 : d.queryAll "div.ha h2" = [] := h _ (by simp [subjectSelectors])
    have h3 : d.queryAll "span[data-thread-perm-id]" = []
      := h _ (by simp [subjectSelectors])
    have h4 : d.queryAll "input[name=\"subject\"]" = []
      := h _ (by simp [subjectSelectors])
    simp [extractSubject, subjectSelectors, querySelector, List.findSome?,
      h1, h2, h3, h4]

end HybridDefense
